import Mathlib

/-!
Shallow embedding of `ComprehensiveInvoiceVerifier` (invoice_verifier.py).

Modelling conventions:
* Python `None` is `Option.none`; a present scalar is `some v`.
* A Python scalar, as consumed by `compare_values` and the report
  formatter, is a `PyVal`: `repr` is its `str()` rendering and `num` is
  `some q` exactly when `float()` succeeds on it (numbers are modelled by
  rationals; IEEE rounding is not modelled).
* Python `set` objects (`matched_pdf_indices`, `matched_excel_indices`)
  are modelled as duplicate-free `List ℕ` with membership-checked insert.
* String operations (`strip`, `lower`, `re.sub(r'\s+', ' ', ·)`, `in`)
  are implemented over `List Char` with ASCII case folding.
-/

/-- A Python scalar as seen by `compare_values` and the report formatter:
`repr` is its `str()` rendering, `num` is `some q` when `float()` succeeds. -/
structure PyVal where
  repr : String
  num : Option ℚ
deriving DecidableEq

/-- Python's `\s` character class: `[ \t\n\r\f\v]`. -/
def isPySpace (c : Char) : Bool :=
  c == ' ' || c == '\t' || c == '\n' || c == '\r' || c == '\x0b' || c == '\x0c'

/-- Python `str.strip()`: drop leading and trailing whitespace. -/
def pyStrip (s : String) : String :=
  String.mk (((s.toList.dropWhile isPySpace).reverse.dropWhile isPySpace).reverse)

/-- One pass of `re.sub(r'\s+', ' ', s)`: each maximal whitespace run is
replaced by a single space.  The flag records whether the previous
character belonged to a whitespace run. -/
def collapseAux : Bool → List Char → List Char
  | _, [] => []
  | prevSpace, c :: cs =>
    if isPySpace c then
      if prevSpace then collapseAux true cs else ' ' :: collapseAux true cs
    else c :: collapseAux false cs

/-- Function `normalize_description` (source lines 220-226): falsy input (`None` or
the empty string) yields `""`; otherwise strip, lowercase (ASCII), and
collapse whitespace runs. -/
def normalize_description (desc : Option String) : String :=
  match desc with
  | Option.none => ""
  | some s =>
    if s = "" then ""
    else String.mk (collapseAux false ((pyStrip s).toList.map Char.toLower))

/-- Function `compare_values` (source lines 228-237): both `None` → `True`; exactly
one `None` → `False`; both `float()`-convertible → `|a - b| < tolerance`;
otherwise the `except` branch compares the `str()` renderings. -/
def compare_values (val1 val2 : Option PyVal) (tolerance : ℚ) : Bool :=
  match val1, val2 with
  | Option.none, Option.none => true
  | Option.none, some _ => false
  | some _, Option.none => false
  | some a, some b =>
    match a.num, b.num with
    | some x, some y => |x - y| < tolerance
    | _, _ => a.repr == b.repr

/-- Test `leadsWith needle hay`: `needle` is an initial segment of `hay`. -/
def leadsWith : List Char → List Char → Bool
  | [], _ => true
  | _ :: _, [] => false
  | a :: as, b :: bs => a == b && leadsWith as bs

/-- Python substring test `a in b` over character lists: `needle` occurs
contiguously somewhere in the haystack. -/
def occursInL (needle : List Char) : List Char → Bool
  | [] => leadsWith needle []
  | hay@(_ :: rest) => leadsWith needle hay || occursInL needle rest

/-- Python `a in b` for strings. -/
def occursIn (a b : String) : Bool := occursInL a.toList b.toList

/-- Description agreement (source lines 278-280): normalize both sides,
then either normalized string being a substring of the other counts. -/
def descMatch (d1 d2 : Option String) : Bool :=
  let n1 := normalize_description d1
  let n2 := normalize_description d2
  occursIn n1 n2 || occursIn n2 n1

/-- Python `str(v)` applied to a maybe-`None` string field: it renders `None`
as the four-character string `"None"`. -/
def pyOptStr : Option String → String
  | Option.none => "None"
  | some s => s

/-- One extracted line item.  The `rank` key stored by the Excel extractor
is never read by the matcher or the report and is omitted. -/
structure LineItem where
  quantity : Option PyVal
  net_weight : Option PyVal
  description : String
  hs_code : Option String
  country_code : Option String
  year : Option Int
  unit_value : Option PyVal
  total_value : Option PyVal
deriving DecidableEq

/-- The `differences` dict of source lines 292-301: one agreement flag per
compared field. -/
structure Differences where
  quantity : Bool
  net_weight : Bool
  description : Bool
  hs_code : Bool
  country_code : Bool
  year : Bool
  unit_value : Bool
  total_value : Bool
deriving DecidableEq

/-- The per-field comparison of source lines 269-280.  `hs_code` and
`country_code` use `str(·)` equality (the `.get` default `'970531'` only
applies to an absent key, which extracted records never have); `year` is
`==` on optionals; the numeric fields use `compare_values` with the
default tolerance `0.01`. -/
def fieldCompare (excelItem pdfItem : LineItem) : Differences :=
  { quantity := compare_values excelItem.quantity pdfItem.quantity (1/100)
    net_weight := compare_values excelItem.net_weight pdfItem.net_weight (1/100)
    description := descMatch (some excelItem.description) (some pdfItem.description)
    hs_code := pyOptStr excelItem.hs_code == pyOptStr pdfItem.hs_code
    country_code := pyOptStr excelItem.country_code == pyOptStr pdfItem.country_code
    year := excelItem.year == pdfItem.year
    unit_value := compare_values excelItem.unit_value pdfItem.unit_value (1/100)
    total_value := compare_values excelItem.total_value pdfItem.total_value (1/100) }

/-- The score of source lines 282-290: number of agreeing fields (0-8). -/
def scoreOf (d : Differences) : ℕ :=
  d.quantity.toNat + d.net_weight.toNat + d.description.toNat + d.hs_code.toNat +
    d.country_code.toNat + d.year.toNat + d.unit_value.toNat + d.total_value.toNat

/-- The `match_score` string stored at source line 323: `f"{score}/8"`. -/
def scoreString (n : ℕ) : String := toString n ++ "/8"

/-- One entry of `results['mismatches']` (source lines 319-324). -/
structure Mismatch where
  excel_item : LineItem
  pdf_item : LineItem
  differences : Differences
  match_score : String
deriving DecidableEq

/-- Outcome of the inner candidate scan for one Excel item. -/
inductive ScanOutcome where
  | perfect (pdfIdx : ℕ)
  | partialMatch (pdfIdx : ℕ) (pdfItem : LineItem) (diffs : Differences) (score : ℕ)
  | noMatch
deriving DecidableEq

/-- The inner loop of `compare_line_items` (source lines 260-315): scan the
enumerated PDF items in order, skipping claimed indices; the first
candidate scoring 8 wins immediately (`break`); otherwise track the best
candidate with a strictly improving score of at least 4, keeping its
index, item, differences vector and score (`best_match_score` starts 0). -/
def scanPdf (e : LineItem) : List (ℕ × LineItem) → List ℕ → ℕ →
    Option (ℕ × LineItem × Differences) → ScanOutcome
  | [], _, bs, best =>
    match best with
    | Option.none => ScanOutcome.noMatch
    | some (j, p, d) => ScanOutcome.partialMatch j p d bs
  | (j, p) :: rest, claimed, bs, best =>
    if j ∈ claimed then scanPdf e rest claimed bs best
    else
      let d := fieldCompare e p
      let sc := scoreOf d
      if sc == 8 then ScanOutcome.perfect j
      else if sc > bs && sc ≥ 4 then scanPdf e rest claimed sc (some (j, p, d))
      else scanPdf e rest claimed bs best

/-- Python `set.add`: insert an index unless already present. -/
def setAdd (i : ℕ) (s : List ℕ) : List ℕ := if i ∈ s then s else i :: s

/-- Mutable state of the outer loop of `compare_line_items`: the counter,
the accumulated mismatch list and the two claimed-index sets. -/
structure MatchState where
  perfect_matches : ℕ
  mismatches : List Mismatch
  matchedPdf : List ℕ
  matchedExcel : List ℕ
deriving DecidableEq

/-- Processing of one enumerated Excel item (source lines 255-326): a
perfect scan outcome claims both indices and bumps the counter; a partial
outcome is recorded only when the Excel index is still unclaimed (source
line 318), claiming both indices. -/
def matchStep (pdfE : List (ℕ × LineItem)) (st : MatchState) (e : ℕ × LineItem) :
    MatchState :=
  match scanPdf e.2 pdfE st.matchedPdf 0 Option.none with
  | ScanOutcome.perfect j =>
    { perfect_matches := st.perfect_matches + 1
      mismatches := st.mismatches
      matchedPdf := setAdd j st.matchedPdf
      matchedExcel := setAdd e.1 st.matchedExcel }
  | ScanOutcome.partialMatch j p d n =>
    if e.1 ∈ st.matchedExcel then st
    else
      { perfect_matches := st.perfect_matches
        mismatches := st.mismatches ++ [⟨e.2, p, d, scoreString n⟩]
        matchedPdf := setAdd j st.matchedPdf
        matchedExcel := setAdd e.1 st.matchedExcel }
  | ScanOutcome.noMatch => st

/-- The outer loop over the enumerated Excel items, in original order. -/
def matchLoop (pdfE : List (ℕ × LineItem)) : List (ℕ × LineItem) → MatchState →
    MatchState
  | [], st => st
  | e :: rest, st => matchLoop pdfE rest (matchStep pdfE st e)

/-- The `results` dict returned by `compare_line_items` (lines 242-249,
328-337). -/
structure Results where
  total_excel : ℕ
  total_pdf : ℕ
  perfect_matches : ℕ
  mismatches : List Mismatch
  unmatched_excel : List LineItem
  unmatched_pdf : List LineItem
deriving DecidableEq

/-- Function `compare_line_items` (source lines 239-337). -/
def compare_line_items (excel_items pdf_items : List LineItem) : Results :=
  let st := matchLoop pdf_items.enum excel_items.enum ⟨0, [], [], []⟩
  { total_excel := excel_items.length
    total_pdf := pdf_items.length
    perfect_matches := st.perfect_matches
    mismatches := st.mismatches
    unmatched_excel :=
      (excel_items.enum.filter fun x => decide (x.1 ∉ st.matchedExcel)).map Prod.snd
    unmatched_pdf :=
      (pdf_items.enum.filter fun x => decide (x.1 ∉ st.matchedPdf)).map Prod.snd }

/-! ### Extraction-time record acceptance (claim C5)

`extract_excel_data` appends a row's record only under the Python
truthiness guard `if rank and quantity and description:` (source line 74);
`extract_pdf_data` guards its append with
`if quantity and net_weight and hs_code and country_code:` (line 188).
Row cells are modelled post-`pandas` as typed optionals; numeric `0`,
`None` and the empty string are all falsy in Python. -/

/-- Python truthiness of a maybe-absent number: `None` and `0` are falsy. -/
def truthyQ : Option ℚ → Bool
  | Option.none => false
  | some q => q != 0

/-- Python truthiness of a maybe-absent string: `None` and `""` are falsy. -/
def truthyS : Option String → Bool
  | Option.none => false
  | some s => s != ""

/-- The Excel row fields consulted by the acceptance guard at line 74. -/
structure ExcelRow where
  rank : Option ℚ
  quantity : Option ℚ
  description : Option String

/-- Source line 74: a row becomes a line item iff
`rank and quantity and description` is truthy. -/
def excelRowAccepted (r : ExcelRow) : Bool :=
  truthyQ r.rank && truthyQ r.quantity && truthyS r.description

/-- Source line 188: a parsed PDF line becomes a line item iff
`quantity and net_weight and hs_code and country_code` is truthy. -/
def pdfItemAccepted (quantity net_weight : Option ℚ)
    (hs_code country_code : Option String) : Bool :=
  truthyQ quantity && truthyQ net_weight && truthyS hs_code && truthyS country_code

/-! ### Header verification and the report formatter -/

/-- Record `verification_results['contact_name']` (source lines 362-367). -/
structure ContactResult where
  required : String
  excel_value : Option String
  pdf_value : Option String
  status : String
deriving DecidableEq

/-- Record `verification_results['purpose_of_shipment']` (source lines 378-382). -/
structure PurposeResult where
  required : String
  pdf_value : Option String
  status : String
deriving DecidableEq

/-- Check 1 of `verify` (source lines 360-367). -/
def mkContactResult (excelContact pdfContact : Option String) : ContactResult :=
  { required := "SB-SHIPPING - PRN 5789187"
    excel_value := excelContact
    pdf_value := pdfContact
    status :=
      if pdfContact = some "SB-SHIPPING - PRN 5789187" then "✓ PASS" else "✗ FAIL" }

/-- Check 2 of `verify` (source lines 376-382). -/
def mkPurposeResult (pdfPurpose : Option String) : PurposeResult :=
  { required := "SB-SHIPPING - REPAIR_AND_RETURN"
    pdf_value := pdfPurpose
    status :=
      if pdfPurpose = some "SB-SHIPPING - REPAIR_AND_RETURN" then "✓ PASS" else "✗ FAIL" }

/-- Python `"=" * 100` and friends. -/
def repChar (c : Char) (n : ℕ) : String := String.mk (List.replicate n c)

/-- Python `str(v)` for a maybe-`None` scalar, as interpolated by the report. -/
def pyOptVal : Option PyVal → String
  | Option.none => "None"
  | some v => v.repr

/-- Python `str(v)` for a maybe-`None` integer (the `year` field). -/
def pyOptInt : Option Int → String
  | Option.none => "None"
  | some n => toString n

/-- Python `s[:80]`. -/
def take80 (s : String) : String := String.mk (s.toList.take 80)

/-- The eight field lines printed for one item (source lines 469-476,
506-514, 523-532 all use this exact layout). -/
def itemLines (item : LineItem) : List String :=
  ["  Quantity:     " ++ pyOptVal item.quantity,
   "  Net Weight:   " ++ pyOptVal item.net_weight ++ " kg",
   "  Description:  " ++ take80 item.description ++ "...",
   "  HS Code:      " ++ pyOptStr item.hs_code,
   "  Country:      " ++ pyOptStr item.country_code,
   "  Year:         " ++ pyOptInt item.year,
   "  Unit Value:   $" ++ pyOptVal item.unit_value,
   "  Total Value:  $" ++ pyOptVal item.total_value]

/-- The ✓/✗ marker of source lines 489-496. -/
def markOf (b : Bool) : String := if b then "✓ Match" else "✗ DIFFERENT"

/-- One discrepancy sub-block (source lines 461-497);
`idx` comes from `enumerate(…, 1)`. -/
def mismatchBlock (idx : ℕ) (m : Mismatch) : List String :=
  ["Discrepancy #" ++ toString idx ++ " - Match Score: " ++ m.match_score,
   repChar '-' 100,
   "YOUR EXCEL:"] ++ itemLines m.excel_item ++
  ["\nFEDEX PDF:"] ++ itemLines m.pdf_item ++
  ["\nFIELD-BY-FIELD COMPARISON:",
   "  Quantity:     " ++ markOf m.differences.quantity,
   "  Net Weight:   " ++ markOf m.differences.net_weight,
   "  Description:  " ++ markOf m.differences.description,
   "  HS Code:      " ++
     (if m.differences.hs_code then "✓ Match" else "✗ DIFFERENT (Should all be 970531)"),
   "  Country:      " ++ markOf m.differences.country_code,
   "  Year:         " ++ markOf m.differences.year,
   "  Unit Value:   " ++ markOf m.differences.unit_value,
   "  Total Value:  " ++ markOf m.differences.total_value,
   "\n"]

/-- Loop `for idx, mismatch in enumerate(summary['mismatches'], 1)`. -/
def mismatchBlocks : ℕ → List Mismatch → List String
  | _, [] => []
  | i, m :: ms => mismatchBlock i m ++ mismatchBlocks (i + 1) ms

/-- One unmatched-item sub-block (source lines 505-515 and 523-533). -/
def unmatchedBlock (label : String) (idx : ℕ) (item : LineItem) : List String :=
  [label ++ toString idx ++ ":"] ++ itemLines item ++ [""]

/-- Loop `for idx, item in enumerate(…, 1)` over an unmatched list. -/
def unmatchedBlocks (label : String) : ℕ → List LineItem → List String
  | _, [] => []
  | i, item :: rest => unmatchedBlock label i item ++ unmatchedBlocks label (i + 1) rest

/-- Flag `contact_ok` of source line 540. -/
def contactOk (cn : ContactResult) : Bool := cn.status == "✓ PASS"

/-- Flag `purpose_ok` of source line 541. -/
def purposeOk (pos : PurposeResult) : Bool := pos.status == "✓ PASS"

/-- Flag `items_ok` of source lines 542-545. -/
def itemsOk (s : Results) : Bool :=
  (s.perfect_matches == s.total_excel) && (s.mismatches.length == 0) &&
    (s.unmatched_excel.length == 0) && (s.unmatched_pdf.length == 0)

/-- The success banner of source lines 554-558. -/
def successBanner : List String :=
  ["╔" ++ repChar '═' 87 ++ "╗",
   "║  ✓✓✓ ALL VERIFICATION CHECKS PASSED ✓✓✓" ++ repChar ' ' 46 ++ "║",
   "║  Your invoice matches FedEx invoice perfectly on ALL 7 FIELDS!" ++ repChar ' ' 23 ++ "║",
   "║  ✓ Quantity ✓ Weight ✓ Description ✓ HS Code ✓ Country ✓ Year ✓ Unit Value ✓ Total ║",
   "╚" ++ repChar '═' 87 ++ "╝"]

/-- The failure banner of source lines 560-564. -/
def failureBanner : List String :=
  ["╔" ++ repChar '═' 87 ++ "╗",
   "║  ✗✗✗ VERIFICATION FAILED - DISCREPANCIES FOUND ✗✗✗" ++ repChar ' ' 35 ++ "║",
   "║  Please review the detailed discrepancies above." ++ repChar ' ' 37 ++ "║",
   "║  Check: Quantity, Weight, Description, HS Code, Country, Year, Unit Value, Total     ║",
   "╚" ++ repChar '═' 87 ++ "╝"]

/-- The banner selection of source lines 553-564. -/
def finalBanner (cn : ContactResult) (pos : PurposeResult) (s : Results) : List String :=
  if contactOk cn && purposeOk pos && itemsOk s then successBanner else failureBanner

/-- The `lines` list built by `generate_report` (source lines 416-566).
`timestamp` is `verification_results['timestamp']`, captured by
`datetime.now()` in `__init__` (source line 12). -/
def reportLines (timestamp : String) (cn : ContactResult) (pos : PurposeResult)
    (s : Results) : List String :=
  [repChar '=' 100,
   "COMPREHENSIVE INVOICE VERIFICATION REPORT",
   "Checking: Quantity | Net Weight | Description | HS Code | Country | Year | Unit Value | Total Value",
   repChar '=' 100,
   "Generated: " ++ timestamp ++ "\n",
   repChar '-' 100,
   "1. CONTACT NAME VERIFICATION",
   repChar '-' 100,
   "Required: " ++ cn.required,
   "Your Excel: " ++ pyOptStr cn.excel_value,
   "FedEx PDF:  " ++ pyOptStr cn.pdf_value,
   "Result: " ++ cn.status ++ "\n",
   repChar '-' 100,
   "2. PURPOSE OF SHIPMENT VERIFICATION",
   repChar '-' 100,
   "Required: " ++ pos.required,
   "FedEx PDF: " ++ pyOptStr pos.pdf_value,
   "Result: " ++ pos.status ++ "\n",
   repChar '-' 100,
   "3. LINE ITEMS VERIFICATION - ALL 7 FIELDS",
   repChar '-' 100,
   "Total in Excel:      " ++ toString s.total_excel,
   "Total in PDF:        " ++ toString s.total_pdf,
   "Perfect Matches:     " ++ toString s.perfect_matches,
   "Partial Matches:     " ++ toString s.mismatches.length,
   "Excel Only:          " ++ toString s.unmatched_excel.length,
   "PDF Only:            " ++ toString s.unmatched_pdf.length ++ "\n"] ++
  (if s.mismatches.length == 0 then []
   else [repChar '=' 100,
         "ITEMS WITH DISCREPANCIES (PARTIAL MATCHES)",
         repChar '=' 100 ++ "\n"] ++ mismatchBlocks 1 s.mismatches) ++
  (if s.unmatched_excel.length == 0 then []
   else [repChar '=' 100,
         "ITEMS ONLY IN YOUR EXCEL (" ++ toString s.unmatched_excel.length ++
           " items - NOT FOUND IN FEDEX PDF)",
         repChar '=' 100 ++ "\n"] ++ unmatchedBlocks "Excel Item #" 1 s.unmatched_excel) ++
  (if s.unmatched_pdf.length == 0 then []
   else [repChar '=' 100,
         "ITEMS ONLY IN FEDEX PDF (" ++ toString s.unmatched_pdf.length ++
           " items - NOT FOUND IN YOUR EXCEL)",
         repChar '=' 100 ++ "\n"] ++ unmatchedBlocks "FedEx PDF Item #" 1 s.unmatched_pdf) ++
  [repChar '=' 100,
   "FINAL VERIFICATION SUMMARY",
   repChar '=' 100,
   "Contact Name:        " ++ cn.status,
   "Purpose of Shipment: " ++ pos.status,
   "All Line Items:      " ++
     (if itemsOk s then "✓ PASS - All 7 fields match perfectly"
      else "✗ FAIL - See discrepancies above"),
   "Perfect Matches:     " ++ toString s.perfect_matches ++ "/" ++ toString s.total_excel,
   ""] ++
  finalBanner cn pos s ++ [""]

/-- Final `report_text = "\n".join(lines)` of `generate_report` (source line 568). -/
def generate_report (timestamp : String) (cn : ContactResult) (pos : PurposeResult)
    (s : Results) : String :=
  String.intercalate "\n" (reportLines timestamp cn pos s)

/-! ### Specification-side model of the candidate scan (claim C3)

`specBest` and `scanSpec` are written from the spec's words (spec.md §4.2
steps 3-4), not from the code: the first unclaimed candidate scoring a
full 8 wins immediately; otherwise the highest-scoring candidate with
score ≥ 4 is selected, ties keeping the first-encountered candidate.
They exist only to be compared with `scanPdf`. -/

/-- Agreement score of one enumerated candidate against an Excel item. -/
def scoreC (e : LineItem) (c : ℕ × LineItem) : ℕ := scoreOf (fieldCompare e c.2)

/-- Spec words: "the highest-scoring candidate with score ≥ 4 …; ties keep
the first-encountered best candidate".  The head of the list beats the
best of the tail exactly when it qualifies and scores at least as much. -/
def specBest (e : LineItem) : List (ℕ × LineItem) → Option (ℕ × LineItem)
  | [] => Option.none
  | c :: cs =>
    match specBest e cs with
    | Option.none => if 4 ≤ scoreC e c then some c else Option.none
    | some d => if 4 ≤ scoreC e c ∧ scoreC e d ≤ scoreC e c then some c else some d

/-- Spec words: "If any candidate scores a full 8, it is accepted
immediately … If no perfect match exists, track the highest-scoring
candidate with score ≥ 4". -/
def scanSpec (e : LineItem) (cs : List (ℕ × LineItem)) : ScanOutcome :=
  match cs.find? (fun c => scoreC e c == 8) with
  | some c => ScanOutcome.perfect c.1
  | Option.none =>
    match specBest e cs with
    | some c => ScanOutcome.partialMatch c.1 c.2 (fieldCompare e c.2) (scoreC e c)
    | Option.none => ScanOutcome.noMatch

/-- The running `best_match_score` encoded by an optional best candidate. -/
def bscoreO (e : LineItem) : Option (ℕ × LineItem) → ℕ
  | Option.none => 0
  | some c => scoreC e c

/-- The `(best_match_idx, best_match, best_differences)` triple encoded by
an optional best candidate. -/
def toBestState (e : LineItem) : Option (ℕ × LineItem) →
    Option (ℕ × LineItem × Differences)
  | Option.none => Option.none
  | some c => some (c.1, c.2, fieldCompare e c.2)

/-- Combine a previously tracked best with the best of a later segment:
the later one wins only with a strictly larger score. -/
def preferC (e : LineItem) : Option (ℕ × LineItem) → Option (ℕ × LineItem) →
    Option (ℕ × LineItem)
  | b, Option.none => b
  | Option.none, some c => some c
  | some b, some c => if scoreC e b < scoreC e c then some c else some b

/-- Turn a final best candidate into a scan outcome. -/
def finishO (e : LineItem) : Option (ℕ × LineItem) → ScanOutcome
  | Option.none => ScanOutcome.noMatch
  | some c => ScanOutcome.partialMatch c.1 c.2 (fieldCompare e c.2) (scoreC e c)

theorem specBest_qual (e : LineItem) :
    ∀ (cs : List (ℕ × LineItem)) (c : ℕ × LineItem),
      specBest e cs = some c → 4 ≤ scoreC e c := by
  intro cs
  induction cs with
  | nil => intro c h; simp [specBest] at h
  | cons a l ih =>
    intro c h
    simp only [specBest] at h
    cases hl : specBest e l with
    | none =>
      rw [hl] at h
      by_cases h4 : 4 ≤ scoreC e a
      · rw [if_pos h4] at h; cases h; exact h4
      · rw [if_neg h4] at h; cases h
    | some d =>
      rw [hl] at h
      dsimp only at h
      by_cases hc : 4 ≤ scoreC e a ∧ scoreC e d ≤ scoreC e a
      · rw [if_pos hc] at h; cases h; exact hc.1
      · rw [if_neg hc] at h; cases h; exact ih _ hl

theorem specBest_mem (e : LineItem) :
    ∀ (cs : List (ℕ × LineItem)) (c : ℕ × LineItem),
      specBest e cs = some c → c ∈ cs := by
  intro cs
  induction cs with
  | nil => intro c h; simp [specBest] at h
  | cons a l ih =>
    intro c h
    simp only [specBest] at h
    cases hl : specBest e l with
    | none =>
      rw [hl] at h
      by_cases h4 : 4 ≤ scoreC e a
      · rw [if_pos h4] at h; cases h; exact List.mem_cons_self a l
      · rw [if_neg h4] at h; cases h
    | some d =>
      rw [hl] at h
      dsimp only at h
      by_cases hc : 4 ≤ scoreC e a ∧ scoreC e d ≤ scoreC e a
      · rw [if_pos hc] at h; cases h; exact List.mem_cons_self a l
      · rw [if_neg hc] at h; cases h; exact List.mem_cons_of_mem a (ih _ hl)

theorem prefer_update (e : LineItem) (b : Option (ℕ × LineItem))
    (c : ℕ × LineItem) (rest : List (ℕ × LineItem))
    (hlt : bscoreO e b < scoreC e c) (h4 : 4 ≤ scoreC e c) :
    preferC e b (specBest e (c :: rest)) = preferC e (some c) (specBest e rest) := by
  cases hrest : specBest e rest with
  | none =>
    simp only [specBest, hrest, if_pos h4]
    cases b with
    | none => rfl
    | some x =>
      simp only [preferC, if_pos (show scoreC e x < scoreC e c from hlt)]
  | some d =>
    simp only [specBest, hrest]
    by_cases hd : scoreC e d ≤ scoreC e c
    · rw [if_pos ⟨h4, hd⟩]
      cases b with
      | none => simp [preferC, if_neg (Nat.not_lt.mpr hd)]
      | some x =>
        simp only [preferC, if_pos (show scoreC e x < scoreC e c from hlt),
          if_neg (Nat.not_lt.mpr hd)]
    · rw [if_neg (fun hc => hd hc.2)]
      have hcd : scoreC e c < scoreC e d := Nat.lt_of_not_le hd
      cases b with
      | none => simp [preferC, if_pos hcd]
      | some x =>
        have hxd : scoreC e x < scoreC e d := Nat.lt_trans hlt hcd
        simp only [preferC, if_pos hxd, if_pos hcd]

theorem prefer_keep (e : LineItem) (b : Option (ℕ × LineItem))
    (c : ℕ × LineItem) (rest : List (ℕ × LineItem))
    (hnot : ¬(bscoreO e b < scoreC e c ∧ 4 ≤ scoreC e c)) :
    preferC e b (specBest e (c :: rest)) = preferC e b (specBest e rest) := by
  by_cases h4 : 4 ≤ scoreC e c
  · have hle : scoreC e c ≤ bscoreO e b := by
      rcases Nat.lt_or_ge (bscoreO e b) (scoreC e c) with h | h
      · exact absurd ⟨h, h4⟩ hnot
      · exact h
    obtain ⟨x, hx⟩ : ∃ x, b = some x := by
      cases b with
      | none => simp [bscoreO] at hle; omega
      | some x => exact ⟨x, rfl⟩
    subst hx
    have hcx : scoreC e c ≤ scoreC e x := hle
    cases hrest : specBest e rest with
    | none =>
      simp only [specBest, hrest, if_pos h4, preferC,
        if_neg (Nat.not_lt.mpr hcx)]
    | some d =>
      simp only [specBest, hrest]
      by_cases hd : scoreC e d ≤ scoreC e c
      · rw [if_pos ⟨h4, hd⟩]
        have hdx : scoreC e d ≤ scoreC e x := Nat.le_trans hd hcx
        simp only [preferC, if_neg (Nat.not_lt.mpr hcx), if_neg (Nat.not_lt.mpr hdx)]
      · rw [if_neg (fun hc => hd hc.2)]
  · cases hrest : specBest e rest with
    | none => simp only [specBest, hrest, if_neg h4]
    | some d =>
      have : ¬(4 ≤ scoreC e c ∧ scoreC e d ≤ scoreC e c) := fun hc => h4 hc.1
      simp only [specBest, hrest, if_neg this]

theorem scanPdf_filter (e : LineItem) :
    ∀ (cs : List (ℕ × LineItem)) (claimed : List ℕ) (bs : ℕ)
      (best : Option (ℕ × LineItem × Differences)),
      scanPdf e cs claimed bs best =
        scanPdf e (cs.filter fun c => decide (c.1 ∉ claimed)) [] bs best := by
  intro cs
  induction cs with
  | nil => intro claimed bs best; rfl
  | cons c rest ih =>
    intro claimed bs best
    obtain ⟨j, p⟩ := c
    by_cases hj : j ∈ claimed
    · rw [List.filter_cons_of_neg (by simp [hj])]
      simp only [scanPdf, if_pos hj]
      exact ih claimed bs best
    · rw [List.filter_cons_of_pos (by simp [hj])]
      simp only [scanPdf, if_neg hj, if_neg (List.not_mem_nil (α := ℕ) j)]
      by_cases h8 : (scoreOf (fieldCompare e p) == 8) = true
      · rw [if_pos h8, if_pos h8]
      · rw [if_neg h8, if_neg h8]
        by_cases himp : (scoreOf (fieldCompare e p) > bs && scoreOf (fieldCompare e p) ≥ 4) = true
        · rw [if_pos himp, if_pos himp]
          exact ih claimed _ _
        · rw [if_neg himp, if_neg himp]
          exact ih claimed bs best

theorem scanPdf_spec_aux (e : LineItem) :
    ∀ (cs : List (ℕ × LineItem)) (b : Option (ℕ × LineItem)),
      (∀ c, b = some c → 4 ≤ scoreC e c) →
      scanPdf e cs [] (bscoreO e b) (toBestState e b) =
        (match cs.find? (fun c => scoreC e c == 8) with
         | some c => ScanOutcome.perfect c.1
         | Option.none => finishO e (preferC e b (specBest e cs))) := by
  intro cs
  induction cs with
  | nil =>
    intro b _
    cases b with
    | none => rfl
    | some x => rfl
  | cons c rest ih =>
    intro b hb
    obtain ⟨j, p⟩ := c
    simp only [scanPdf, if_neg (List.not_mem_nil (α := ℕ) j)]
    by_cases h8 : (scoreOf (fieldCompare e p) == 8) = true
    · rw [if_pos h8]
      have hpos : List.find? (fun c => scoreC e c == 8) ((j, p) :: rest) = some (j, p) :=
        List.find?_cons_of_pos rest (show ((fun c => scoreC e c == 8) (j, p)) = true from h8)
      rw [hpos]
    · rw [if_neg h8]
      have hfind : List.find? (fun c => scoreC e c == 8) ((j, p) :: rest) =
          List.find? (fun c => scoreC e c == 8) rest :=
        List.find?_cons_of_neg _ (by simpa [scoreC] using h8)
      rw [hfind]
      by_cases himp : bscoreO e b < scoreOf (fieldCompare e p) ∧
          4 ≤ scoreOf (fieldCompare e p)
      · have hbool : (scoreOf (fieldCompare e p) > bscoreO e b &&
            scoreOf (fieldCompare e p) ≥ 4) = true := by
          simp only [Bool.and_eq_true, decide_eq_true_eq]
          exact ⟨himp.1, himp.2⟩
        rw [if_pos hbool]
        have hstep : scanPdf e rest [] (scoreOf (fieldCompare e p))
              (some (j, p, fieldCompare e p)) =
            scanPdf e rest [] (bscoreO e (some (j, p))) (toBestState e (some (j, p))) := rfl
        rw [hstep, ih (some (j, p)) (fun c hc => by cases hc; exact himp.2)]
        cases hf : List.find? (fun c => scoreC e c == 8) rest with
        | some c' => rfl
        | none =>
          simp only
          rw [prefer_update e b (j, p) rest himp.1 himp.2]
      · have hbool : (scoreOf (fieldCompare e p) > bscoreO e b &&
            scoreOf (fieldCompare e p) ≥ 4) = false := by
          simp only [Bool.and_eq_true, decide_eq_true_eq, Bool.eq_false_iff, ne_eq]
          intro hc
          exact himp ⟨hc.1, hc.2⟩
        rw [if_neg (by simp [hbool])]
        rw [ih b hb]
        cases hf : List.find? (fun c => scoreC e c == 8) rest with
        | some c' => rfl
        | none =>
          simp only
          rw [prefer_keep e b (j, p) rest (by simpa [scoreC] using himp)]

theorem scanPdf_eq_scanSpec (e : LineItem) (cs : List (ℕ × LineItem))
    (claimed : List ℕ) :
    scanPdf e cs claimed 0 Option.none =
      scanSpec e (cs.filter fun c => decide (c.1 ∉ claimed)) := by
  rw [scanPdf_filter]
  have h := scanPdf_spec_aux e (cs.filter fun c => decide (c.1 ∉ claimed))
    Option.none (by intro c hc; cases hc)
  rw [show bscoreO e Option.none = 0 from rfl,
    show toBestState e Option.none = Option.none from rfl] at h
  rw [h]
  unfold scanSpec
  cases hf : List.find? (fun c => scoreC e c == 8)
      (cs.filter fun c => decide (c.1 ∉ claimed)) with
  | some c => rfl
  | none =>
    simp only
    cases hs : specBest e (cs.filter fun c => decide (c.1 ∉ claimed)) with
    | none => rfl
    | some c => rfl

theorem scoreOf_le_eight (d : Differences) : scoreOf d ≤ 8 := by
  have hb : ∀ b : Bool, b.toNat ≤ 1 := fun b => by cases b <;> decide
  have h1 := hb d.quantity
  have h2 := hb d.net_weight
  have h3 := hb d.description
  have h4 := hb d.hs_code
  have h5 := hb d.country_code
  have h6 := hb d.year
  have h7 := hb d.unit_value
  have h8 := hb d.total_value
  unfold scoreOf
  omega

theorem scan_perfect_char (e : LineItem) (cs : List (ℕ × LineItem))
    (claimed : List ℕ) (j : ℕ)
    (h : scanPdf e cs claimed 0 Option.none = ScanOutcome.perfect j) :
    ∃ p, (j, p) ∈ cs ∧ j ∉ claimed ∧ scoreOf (fieldCompare e p) = 8 := by
  rw [scanPdf_eq_scanSpec] at h
  unfold scanSpec at h
  cases hf : List.find? (fun c => scoreC e c == 8)
      (cs.filter fun c => decide (c.1 ∉ claimed)) with
  | none =>
    rw [hf] at h
    dsimp only at h
    cases hs : specBest e (cs.filter fun c => decide (c.1 ∉ claimed)) with
    | none => rw [hs] at h; cases h
    | some c => rw [hs] at h; cases h
  | some c =>
    rw [hf] at h
    dsimp only at h
    cases h
    have hmem := List.mem_of_find?_eq_some hf
    have hsc := List.find?_some hf
    rw [List.mem_filter] at hmem
    refine ⟨c.2, ?_, ?_, ?_⟩
    · have : (c.1, c.2) = c := rfl
      rw [this]; exact hmem.1
    · simpa using hmem.2
    · simpa [scoreC] using hsc

theorem scan_partial_char (e : LineItem) (cs : List (ℕ × LineItem))
    (claimed : List ℕ) (j : ℕ) (p : LineItem) (d : Differences) (n : ℕ)
    (h : scanPdf e cs claimed 0 Option.none = ScanOutcome.partialMatch j p d n) :
    (j, p) ∈ cs ∧ j ∉ claimed ∧ d = fieldCompare e p ∧ n = scoreOf d ∧
      4 ≤ n ∧ n ≤ 7 := by
  rw [scanPdf_eq_scanSpec] at h
  unfold scanSpec at h
  cases hf : List.find? (fun c => scoreC e c == 8)
      (cs.filter fun c => decide (c.1 ∉ claimed)) with
  | some c => rw [hf] at h; cases h
  | none =>
    rw [hf] at h
    dsimp only at h
    cases hs : specBest e (cs.filter fun c => decide (c.1 ∉ claimed)) with
    | none => rw [hs] at h; cases h
    | some c =>
      rw [hs] at h
      cases h
      have hmem := specBest_mem e _ _ hs
      have hqual := specBest_qual e _ _ hs
      rw [List.mem_filter] at hmem
      have hne : (scoreC e c == 8) = false := by
        have := List.find?_eq_none.mp hf c (by rw [List.mem_filter]; exact hmem)
        simpa using this
      have hle := scoreOf_le_eight (fieldCompare e c.2)
      have hne' : scoreC e c ≠ 8 := by simpa using hne
      refine ⟨?_, ?_, rfl, rfl, hqual, ?_⟩
      · have : (c.1, c.2) = c := rfl
        rw [this]; exact hmem.1
      · simpa using hmem.2
      · have hsame : scoreC e c = scoreOf (fieldCompare e c.2) := rfl
        omega

theorem length_filter_not_add {α : Type} (l : List α) (p : α → Bool) :
    (l.filter p).length + (l.filter fun a => !(p a)).length = l.length := by
  induction l with
  | nil => rfl
  | cons a l ih =>
    by_cases h : p a = true
    · rw [List.filter_cons_of_pos h, List.filter_cons_of_neg (by simp [h])]
      simp only [List.length_cons]
      omega
    · rw [List.filter_cons_of_neg h, List.filter_cons_of_pos (by simp [h])]
      simp only [List.length_cons]
      omega

theorem range_filter_mem_length (S : List ℕ) (n : ℕ) (hnd : S.Nodup)
    (hb : ∀ i ∈ S, i < n) :
    ((List.range n).filter fun i => decide (i ∈ S)).length = S.length := by
  have hperm : ((List.range n).filter fun i => decide (i ∈ S)).Perm S := by
    rw [List.perm_ext_iff_of_nodup (List.Nodup.filter _ (List.nodup_range n)) hnd]
    intro a
    constructor
    · intro h
      exact of_decide_eq_true (List.mem_filter.mp h).2
    · intro h
      exact List.mem_filter.mpr ⟨List.mem_range.mpr (hb a h), decide_eq_true h⟩
  exact hperm.length_eq

theorem enum_map_fst_eq (l : List α) : l.enum.map Prod.fst = List.range l.length := by
  rw [show l.enum = l.enumFrom 0 from rfl, List.enumFrom_map_fst, ← List.range_eq_range']

theorem enum_filter_length {α : Type} (l : List α) (S : List ℕ) (hnd : S.Nodup)
    (hb : ∀ i ∈ S, i < l.length) :
    (l.enum.filter fun x => decide (x.1 ∉ S)).length + S.length = l.length := by
  have h1 : (l.enum.filter fun x => decide (x.1 ∉ S)).length
      = ((l.enum.map Prod.fst).filter fun i => decide (i ∉ S)).length := by
    rw [List.filter_map, List.length_map]
    rfl
  rw [h1, enum_map_fst_eq]
  have h2 : ((List.range l.length).filter fun i => decide (i ∉ S))
      = ((List.range l.length).filter fun i => !(decide (i ∈ S))) := by
    apply List.filter_congr
    intro i _
    simp [decide_not]
  rw [h2]
  have h3 := length_filter_not_add (List.range l.length) (fun i => decide (i ∈ S))
  have h4 := range_filter_mem_length S l.length hnd hb
  rw [List.length_range] at h3
  omega

theorem mem_enum_fst_lt {α : Type} (l : List α) (x : ℕ × α) (h : x ∈ l.enum) :
    x.1 < l.length := by
  have hm : x.1 ∈ l.enum.map Prod.fst := List.mem_map_of_mem Prod.fst h
  rw [enum_map_fst_eq] at hm
  exact List.mem_range.mp hm

/-- The property every recorded `mismatches` entry satisfies. -/
def MismatchOK (m : Mismatch) : Prop :=
  ∃ n, 4 ≤ n ∧ n ≤ 7 ∧ m.match_score = scoreString n ∧ scoreOf m.differences = n

theorem matchLoop_inv (B : List LineItem) :
    ∀ (ex : List (ℕ × LineItem)) (st : MatchState),
      st.matchedPdf.Nodup →
      (∀ j ∈ st.matchedPdf, j < B.length) →
      st.matchedExcel.Nodup →
      (∀ i ∈ st.matchedExcel, i ∉ ex.map Prod.fst) →
      (ex.map Prod.fst).Nodup →
      st.perfect_matches + st.mismatches.length = st.matchedExcel.length →
      st.matchedExcel.length = st.matchedPdf.length →
      (∀ m ∈ st.mismatches, MismatchOK m) →
      (matchLoop B.enum ex st).matchedPdf.Nodup ∧
      (∀ j ∈ (matchLoop B.enum ex st).matchedPdf, j < B.length) ∧
      (matchLoop B.enum ex st).matchedExcel.Nodup ∧
      (∀ i ∈ (matchLoop B.enum ex st).matchedExcel,
        i ∈ st.matchedExcel ∨ i ∈ ex.map Prod.fst) ∧
      (matchLoop B.enum ex st).perfect_matches +
          (matchLoop B.enum ex st).mismatches.length =
        (matchLoop B.enum ex st).matchedExcel.length ∧
      (matchLoop B.enum ex st).matchedExcel.length =
        (matchLoop B.enum ex st).matchedPdf.length ∧
      (∀ m ∈ (matchLoop B.enum ex st).mismatches, MismatchOK m) := by
  intro ex
  induction ex with
  | nil =>
    intro st h1 h2 h3 _ _ h6 h7 h8
    exact ⟨h1, h2, h3, fun i hi => Or.inl hi, h6, h7, h8⟩
  | cons e rest ih =>
    intro st h1 h2 h3 hdisj hexnd h6 h7 h8
    have hfresh : e.1 ∉ st.matchedExcel := by
      intro hmem
      exact hdisj e.1 hmem (by simp)
    have hheadnotin : e.1 ∉ rest.map Prod.fst := by
      have := hexnd
      rw [List.map_cons, List.nodup_cons] at this
      exact this.1
    have hrestnd : (rest.map Prod.fst).Nodup := by
      have := hexnd
      rw [List.map_cons, List.nodup_cons] at this
      exact this.2
    have hloop : matchLoop B.enum (e :: rest) st =
        matchLoop B.enum rest (matchStep B.enum st e) := rfl
    rw [hloop]
    cases hscan : scanPdf e.2 B.enum st.matchedPdf 0 Option.none with
    | perfect j =>
      obtain ⟨p, hmem, hnotcl, _⟩ := scan_perfect_char _ _ _ _ hscan
      have hjlt : j < B.length := mem_enum_fst_lt B (j, p) hmem
      have hstep : matchStep B.enum st e =
          { perfect_matches := st.perfect_matches + 1
            mismatches := st.mismatches
            matchedPdf := j :: st.matchedPdf
            matchedExcel := e.1 :: st.matchedExcel } := by
        unfold matchStep
        rw [hscan]
        simp only [setAdd, if_neg hnotcl, if_neg hfresh]
      rw [hstep]
      have hres := ih (MatchState.mk (st.perfect_matches + 1) st.mismatches
          (j :: st.matchedPdf) (e.1 :: st.matchedExcel))
        (List.nodup_cons.mpr ⟨hnotcl, h1⟩)
        (by
          intro j' hj'
          rcases List.mem_cons.mp hj' with h | h
          · subst h; exact hjlt
          · exact h2 j' h)
        (List.nodup_cons.mpr ⟨hfresh, h3⟩)
        (by
          intro i hi
          rcases List.mem_cons.mp hi with h | h
          · subst h; exact hheadnotin
          · intro hc
            exact hdisj i h (by rw [List.map_cons]; exact List.mem_cons_of_mem _ hc))
        hrestnd
        (by simp only [List.length_cons]; omega)
        (by simp only [List.length_cons]; omega)
        h8
      refine ⟨hres.1, hres.2.1, hres.2.2.1, ?_, hres.2.2.2.2⟩
      intro i hi
      rcases hres.2.2.2.1 i hi with h | h
      · rcases List.mem_cons.mp h with h' | h'
        · subst h'; right; rw [List.map_cons]; exact List.mem_cons_self _ _
        · exact Or.inl h'
      · right; rw [List.map_cons]; exact List.mem_cons_of_mem _ h
    | partialMatch j p d n =>
      obtain ⟨hmem, hnotcl, hd, hn, h4n, h7n⟩ := scan_partial_char _ _ _ _ _ _ _ hscan
      have hjlt : j < B.length := mem_enum_fst_lt B (j, p) hmem
      have hstep : matchStep B.enum st e =
          { perfect_matches := st.perfect_matches
            mismatches := st.mismatches ++ [⟨e.2, p, d, scoreString n⟩]
            matchedPdf := j :: st.matchedPdf
            matchedExcel := e.1 :: st.matchedExcel } := by
        unfold matchStep
        rw [hscan]
        simp only [if_neg hfresh, setAdd, if_neg hnotcl]
      rw [hstep]
      have hres := ih (MatchState.mk st.perfect_matches
          (st.mismatches ++ [⟨e.2, p, d, scoreString n⟩])
          (j :: st.matchedPdf) (e.1 :: st.matchedExcel))
        (List.nodup_cons.mpr ⟨hnotcl, h1⟩)
        (by
          intro j' hj'
          rcases List.mem_cons.mp hj' with h | h
          · subst h; exact hjlt
          · exact h2 j' h)
        (List.nodup_cons.mpr ⟨hfresh, h3⟩)
        (by
          intro i hi
          rcases List.mem_cons.mp hi with h | h
          · subst h; exact hheadnotin
          · intro hc
            exact hdisj i h (by rw [List.map_cons]; exact List.mem_cons_of_mem _ hc))
        hrestnd
        (by simp only [List.length_cons, List.length_append, List.length_singleton, List.length_nil]; omega)
        (by simp only [List.length_cons]; omega)
        (by
          intro m hm
          rcases List.mem_append.mp hm with h | h
          · exact h8 m h
          · rw [List.mem_singleton] at h
            subst h
            exact ⟨n, h4n, h7n, rfl, by rw [hn]⟩)
      refine ⟨hres.1, hres.2.1, hres.2.2.1, ?_, hres.2.2.2.2⟩
      intro i hi
      rcases hres.2.2.2.1 i hi with h | h
      · rcases List.mem_cons.mp h with h' | h'
        · subst h'; right; rw [List.map_cons]; exact List.mem_cons_self _ _
        · exact Or.inl h'
      · right; rw [List.map_cons]; exact List.mem_cons_of_mem _ h
    | noMatch =>
      have hstep : matchStep B.enum st e = st := by
        unfold matchStep
        rw [hscan]
      rw [hstep]
      have hres := ih st h1 h2 h3
        (by
          intro i hi hc
          exact hdisj i hi (by rw [List.map_cons]; exact List.mem_cons_of_mem _ hc))
        hrestnd h6 h7 h8
      refine ⟨hres.1, hres.2.1, hres.2.2.1, ?_, hres.2.2.2.2⟩
      intro i hi
      rcases hres.2.2.2.1 i hi with h | h
      · exact Or.inl h
      · right; rw [List.map_cons]; exact List.mem_cons_of_mem _ h

theorem compare_line_items_main (A B : List LineItem) :
    (compare_line_items A B).perfect_matches +
        (compare_line_items A B).mismatches.length +
        (compare_line_items A B).unmatched_excel.length = A.length ∧
    (compare_line_items A B).perfect_matches +
        (compare_line_items A B).mismatches.length +
        (compare_line_items A B).unmatched_pdf.length = B.length ∧
    (∀ m ∈ (compare_line_items A B).mismatches, MismatchOK m) := by
  obtain ⟨hPnd, hPlt, hEnd, hEmem, hcnt, hlen, hmok⟩ :=
    matchLoop_inv B A.enum ⟨0, [], [], []⟩
      List.nodup_nil (fun j h => absurd h (List.not_mem_nil j)) List.nodup_nil
      (fun i h _ => absurd h (List.not_mem_nil i))
      (by rw [enum_map_fst_eq]; exact List.nodup_range A.length)
      rfl rfl (fun m h => absurd h (List.not_mem_nil m))
  have hElt : ∀ i ∈ (matchLoop B.enum A.enum ⟨0, [], [], []⟩).matchedExcel,
      i < A.length := by
    intro i hi
    rcases hEmem i hi with h | h
    · exact absurd h (List.not_mem_nil i)
    · rw [enum_map_fst_eq] at h
      exact List.mem_range.mp h
  have hA := enum_filter_length A
    (matchLoop B.enum A.enum ⟨0, [], [], []⟩).matchedExcel hEnd hElt
  have hB := enum_filter_length B
    (matchLoop B.enum A.enum ⟨0, [], [], []⟩).matchedPdf hPnd hPlt
  refine ⟨?_, ?_, ?_⟩
  · simp only [compare_line_items, List.length_map]
    omega
  · simp only [compare_line_items, List.length_map]
    omega
  · simp only [compare_line_items]
    exact hmok

/-! ### Claim theorems -/

/-- Claim C1: for every pair of input lists, `compare_line_items` places
every Excel index in exactly one of {perfect, partial, unmatched_excel}
and every PDF index in exactly one of {perfect, partial, unmatched_pdf}:
the three pairwise-disjoint categories for each side have cardinalities
summing to that side's total, and the reported totals are the input
lengths, so matching never fails or drops a record. -/
theorem C1_partition_complete (A B : List LineItem) :
    (compare_line_items A B).perfect_matches +
        (compare_line_items A B).mismatches.length +
        (compare_line_items A B).unmatched_excel.length = A.length ∧
    (compare_line_items A B).perfect_matches +
        (compare_line_items A B).mismatches.length +
        (compare_line_items A B).unmatched_pdf.length = B.length ∧
    (compare_line_items A B).total_excel = A.length ∧
    (compare_line_items A B).total_pdf = B.length :=
  ⟨(compare_line_items_main A B).1, (compare_line_items_main A B).2.1, rfl, rfl⟩

/-- Claim C2: every pairing accepted as a perfect match has agreement
score exactly 8, and every recorded partial match carries a score `n`
with 4 ≤ n ≤ 7 (stored as the string `"n/8"`, with the stored per-field
vector summing to `n`); no partial match with score below 4 is recorded. -/
theorem C2_score_bounds :
    (∀ (A B : List LineItem), ∀ m ∈ (compare_line_items A B).mismatches,
      ∃ n, 4 ≤ n ∧ n ≤ 7 ∧ m.match_score = scoreString n ∧
        scoreOf m.differences = n) ∧
    (∀ (e : LineItem) (cs : List (ℕ × LineItem)) (claimed : List ℕ) (j : ℕ),
      scanPdf e cs claimed 0 Option.none = ScanOutcome.perfect j →
      ∃ p, (j, p) ∈ cs ∧ j ∉ claimed ∧ scoreOf (fieldCompare e p) = 8) :=
  ⟨fun A B m hm => (compare_line_items_main A B).2.2 m hm,
   fun e cs claimed j h => scan_perfect_char e cs claimed j h⟩

/-- Claim C3: the inner scan over unclaimed PDF candidates, in original
order, accepts the first candidate scoring a full 8 immediately and stops;
otherwise it keeps the highest-scoring candidate with score ≥ 4,
first-encountered among equal scores.  `scanSpec`/`specBest` state this
verbatim from the spec, and the code's loop equals that specification. -/
theorem C3_scan_first_perfect_then_best (e : LineItem)
    (cs : List (ℕ × LineItem)) (claimed : List ℕ) :
    scanPdf e cs claimed 0 Option.none =
      scanSpec e (cs.filter fun c => decide (c.1 ∉ claimed)) :=
  scanPdf_eq_scanSpec e cs claimed

/-- A sample Excel-side item used by the concrete witnesses. -/
def sampleItemA : LineItem :=
  { quantity := some ⟨"10.0", some 10⟩
    net_weight := some ⟨"1.0", some 1⟩
    description := "coin"
    hs_code := some "970531"
    country_code := some "GB"
    year := some 1990
    unit_value := some ⟨"5.0", some 5⟩
    total_value := some ⟨"50.0", some 50⟩ }

/-- Item `sampleItemA` with a disagreeing total value (score 7 of 8). -/
def sampleItemB : LineItem := { sampleItemA with total_value := some ⟨"55.0", some 55⟩ }

theorem compare_values_num (r1 r2 : String) (x y : ℚ) (t : ℚ) :
    compare_values (some ⟨r1, some x⟩) (some ⟨r2, some y⟩) t = decide (|x - y| < t) := rfl

theorem fieldCompare_AA :
    fieldCompare sampleItemA sampleItemA = ⟨true, true, true, true, true, true, true, true⟩ := by
  simp only [fieldCompare, sampleItemA, compare_values_num, Differences.mk.injEq,
    decide_eq_true_eq]
  refine ⟨?_, ?_, ?_, ?_, ?_, ?_, ?_, ?_⟩
  · norm_num
  · norm_num
  · decide
  · decide
  · decide
  · decide
  · norm_num
  · norm_num

theorem fieldCompare_AB :
    fieldCompare sampleItemA sampleItemB = ⟨true, true, true, true, true, true, true, false⟩ := by
  simp only [fieldCompare, sampleItemA, sampleItemB, compare_values_num,
    Differences.mk.injEq, decide_eq_true_eq]
  refine ⟨?_, ?_, ?_, ?_, ?_, ?_, ?_, ?_⟩
  · norm_num
  · norm_num
  · decide
  · decide
  · decide
  · decide
  · norm_num
  · norm_num

theorem scan_sample_perfect :
    scanPdf sampleItemA [(0, sampleItemA)] [] 0 Option.none = ScanOutcome.perfect 0 := by
  simp only [scanPdf, List.not_mem_nil, fieldCompare_AA]
  decide

theorem mismatches_sample :
    (compare_line_items [sampleItemA] [sampleItemB]).mismatches =
      [⟨sampleItemA, sampleItemB, ⟨true, true, true, true, true, true, true, false⟩,
        scoreString 7⟩] := by
  simp only [compare_line_items, matchLoop, matchStep, List.enum, List.enumFrom,
    scanPdf, List.not_mem_nil, fieldCompare_AB, setAdd]
  decide

/-- Witness for C2 at concrete inputs: the one partial match produced by
`compare_line_items [sampleItemA] [sampleItemB]` has score 7, and a
perfect scan outcome against an identical candidate has score 8. -/
theorem C2_score_bounds_witness :
    (∃ n, 4 ≤ n ∧ n ≤ 7 ∧
      (Mismatch.mk sampleItemA sampleItemB ⟨true, true, true, true, true, true, true, false⟩
        (scoreString 7)).match_score = scoreString n ∧
      scoreOf (Mismatch.mk sampleItemA sampleItemB
        ⟨true, true, true, true, true, true, true, false⟩ (scoreString 7)).differences = n) ∧
    (∃ p, (0, p) ∈ [(0, sampleItemA)] ∧ 0 ∉ ([] : List ℕ) ∧
      scoreOf (fieldCompare sampleItemA p) = 8) :=
  ⟨C2_score_bounds.1 [sampleItemA] [sampleItemB] _
      (by rw [mismatches_sample]; exact List.mem_singleton.mpr rfl),
   C2_score_bounds.2 sampleItemA [(0, sampleItemA)] [] 0 scan_sample_perfect⟩

/-- Claim C4: `compare_values` is true on two nulls, false when exactly
one input is null, compares two numeric inputs by `|a - b| < tolerance`,
and falls back to exact string equality of the `str()` renderings when
either `float()` conversion fails; in particular the four quoted example
evaluations hold at tolerance `0.01`. -/
theorem C4_compare_values_behaviour :
    (∀ t : ℚ, compare_values Option.none Option.none t = true) ∧
    (∀ (b : PyVal) (t : ℚ), compare_values Option.none (some b) t = false ∧
      compare_values (some b) Option.none t = false) ∧
    (∀ (r1 r2 : String) (x y t : ℚ),
      compare_values (some ⟨r1, some x⟩) (some ⟨r2, some y⟩) t = decide (|x - y| < t)) ∧
    (∀ (r1 r2 : String) (n : Option ℚ) (t : ℚ),
      compare_values (some ⟨r1, Option.none⟩) (some ⟨r2, n⟩) t = (r1 == r2) ∧
      compare_values (some ⟨r1, n⟩) (some ⟨r2, Option.none⟩) t = (r1 == r2)) ∧
    compare_values (some ⟨"5", some 5⟩) (some ⟨"5.005", some (5005/1000)⟩) (1/100) = true ∧
    compare_values (some ⟨"5", some 5⟩) (some ⟨"5.02", some (502/100)⟩) (1/100) = false := by
  refine ⟨fun t => rfl, fun b t => ⟨rfl, rfl⟩, fun r1 r2 x y t => rfl,
    fun r1 r2 n t => ⟨?_, ?_⟩, ?_, ?_⟩
  · cases n <;> rfl
  · cases n <;> rfl
  · rw [compare_values_num, decide_eq_true_eq, abs_lt]
    constructor <;> norm_num
  · rw [compare_values_num, decide_eq_false_iff_not, not_lt, le_abs]
    right
    norm_num

/-- Claim C5 (code bug): the extraction guards use Python truthiness, so a
record whose quantity is `0` (with a description present) is dropped from
the extracted line-item list on both sides, although the comparator treats
`0` as an ordinary number distinct from null. -/
theorem C5_quantity_zero_dropped :
    excelRowAccepted ⟨some 1, some 0, some "coin"⟩ = false ∧
    pdfItemAccepted (some 0) (some 3) (some "970531") (some "GB") = false ∧
    compare_values (some ⟨"0.0", some 0⟩) (some ⟨"0.0", some 0⟩) (1/100) = true ∧
    compare_values (some ⟨"0.0", some 0⟩) Option.none (1/100) = false := by
  refine ⟨by decide, by decide, ?_, rfl⟩
  rw [compare_values_num, decide_eq_true_eq]
  norm_num

/-- Excel-side item whose country cell literally reads `None`. -/
def cexExcelItem : LineItem := { sampleItemA with country_code := some "None" }

/-- PDF-side item with a null country code. -/
def cexPdfItem : LineItem := { sampleItemA with country_code := Option.none }

/-- Claim C6 counterexample: a null `country_code` on exactly one side
does count as agreeing when the other side's string is the literal
`"None"`, because the comparison is `str()`-rendering equality and Python
renders `None` as `"None"`. -/
theorem C6_counterexample :
    cexExcelItem.country_code = some "None" ∧
    cexPdfItem.country_code = Option.none ∧
    (fieldCompare cexExcelItem cexPdfItem).country_code = true :=
  ⟨rfl, rfl, rfl⟩

/-- Claim C6 amended: `hs_code` and `country_code` agreement is exact
equality of the `str()` renderings with no tolerance (two present values
agree iff the strings are equal; null agrees with null), and a null on
exactly one side does not agree unless the present side's string is the
literal `"None"`; `year` agreement is exact equality of optionals, with
null equal to null only. -/
theorem C6_amended_exact_equality :
    (∀ x y : LineItem,
      (fieldCompare x y).hs_code = (pyOptStr x.hs_code == pyOptStr y.hs_code) ∧
      (fieldCompare x y).country_code =
        (pyOptStr x.country_code == pyOptStr y.country_code) ∧
      (fieldCompare x y).year = (x.year == y.year)) ∧
    (∀ a b : String, ((pyOptStr (some a) == pyOptStr (some b)) = true ↔ a = b)) ∧
    (∀ s : String, s ≠ "None" →
      (pyOptStr (some s) == pyOptStr Option.none) = false ∧
      (pyOptStr Option.none == pyOptStr (some s)) = false) ∧
    ((pyOptStr (Option.none : Option String) == pyOptStr Option.none) = true) ∧
    (∀ y z : Option Int, ((y == z) = true ↔ y = z)) := by
  refine ⟨fun x y => ⟨rfl, rfl, rfl⟩, fun a b => ?_, fun s hs => ⟨?_, ?_⟩, rfl,
    fun y z => ?_⟩
  · simp [pyOptStr]
  · simp only [pyOptStr, beq_eq_false_iff_ne, ne_eq]
    exact hs
  · simp only [pyOptStr, beq_eq_false_iff_ne, ne_eq]
    exact fun h => hs h.symm
  · simp

/-- Witness for the amended C6 at concrete values: a present `"GB"`
against a null does not agree. -/
theorem C6_amended_witness :
    (pyOptStr (some "GB") == pyOptStr Option.none) = false :=
  (C6_amended_exact_equality.2.2.1 "GB" (by decide)).1

/-- Claim C7: the report's final banner is the success banner iff both
header statuses are `✓ PASS`, the perfect-match count equals the Excel
total, and the partial and both unmatched lists are empty. -/
theorem C7_banner_iff (cn : ContactResult) (pos : PurposeResult) (s : Results) :
    finalBanner cn pos s = successBanner ↔
      (cn.status = "✓ PASS" ∧ pos.status = "✓ PASS" ∧
       s.perfect_matches = s.total_excel ∧ s.mismatches = [] ∧
       s.unmatched_excel = [] ∧ s.unmatched_pdf = []) := by
  have hiff : (contactOk cn && purposeOk pos && itemsOk s) = true ↔
      (cn.status = "✓ PASS" ∧ pos.status = "✓ PASS" ∧
       s.perfect_matches = s.total_excel ∧ s.mismatches = [] ∧
       s.unmatched_excel = [] ∧ s.unmatched_pdf = []) := by
    simp [contactOk, purposeOk, itemsOk, Bool.and_eq_true, beq_iff_eq,
      List.length_eq_zero, and_assoc]
  unfold finalBanner
  by_cases h : (contactOk cn && purposeOk pos && itemsOk s) = true
  · rw [if_pos h]
    simp only [true_iff, hiff.mp h]
    tauto
  · rw [if_neg h]
    constructor
    · intro hcontra
      exact absurd hcontra (by decide)
    · intro hprops
      exact absurd (hiff.mpr hprops) h

/-- Given an empty needle, Python's `in` always succeeds. -/
theorem occursInL_nil (l : List Char) : occursInL [] l = true := by
  cases l <;> simp [occursInL, leadsWith]

/-- Claim C9: whenever either description is null or normalizes to the
empty string, the description comparison succeeds, because the empty
string is a substring of every string. -/
theorem C9_empty_description_matches (d1 d2 : Option String)
    (h : d1 = Option.none ∨ normalize_description d1 = "" ∨
      d2 = Option.none ∨ normalize_description d2 = "") :
    descMatch d1 d2 = true := by
  have hnorm : normalize_description d1 = "" ∨ normalize_description d2 = "" := by
    rcases h with h | h | h | h
    · left; rw [h]; rfl
    · exact Or.inl h
    · right; rw [h]; rfl
    · exact Or.inr h
  unfold descMatch occursIn
  dsimp only
  rcases hnorm with h | h
  · rw [h, show ("" : String).toList = [] from rfl, occursInL_nil]
    exact Bool.true_or _
  · rw [h, show ("" : String).toList = [] from rfl, occursInL_nil]
    exact Bool.or_true _

/-- Witness for C9: a null first description matches any second one. -/
theorem C9_empty_description_matches_witness :
    descMatch Option.none (some "collectors pieces") = true :=
  C9_empty_description_matches Option.none (some "collectors pieces") (Or.inl rfl)

/-- Claim C10: both comparators are symmetric: `compare_values` gives the
same verdict with its arguments swapped, and so does the normalized
substring description match. -/
theorem C10_comparators_symmetric :
    (∀ (a b : Option PyVal) (t : ℚ), compare_values a b t = compare_values b a t) ∧
    (∀ d1 d2 : Option String, descMatch d1 d2 = descMatch d2 d1) := by
  constructor
  · intro a b t
    cases a with
    | none => cases b <;> rfl
    | some x =>
      cases b with
      | none => rfl
      | some y =>
        unfold compare_values
        cases hx : x.num with
        | none =>
          cases hy : y.num with
          | none =>
            dsimp only
            rw [hx, hy]
            dsimp only
            by_cases h : x.repr = y.repr
            · rw [h]
            · rw [beq_eq_false_iff_ne.mpr h, beq_eq_false_iff_ne.mpr (Ne.symm h)]
          | some qy =>
            dsimp only
            rw [hx, hy]
            dsimp only
            by_cases h : x.repr = y.repr
            · rw [h]
            · rw [beq_eq_false_iff_ne.mpr h, beq_eq_false_iff_ne.mpr (Ne.symm h)]
        | some qx =>
          cases hy : y.num with
          | none =>
            dsimp only
            rw [hx, hy]
            dsimp only
            by_cases h : x.repr = y.repr
            · rw [h]
            · rw [beq_eq_false_iff_ne.mpr h, beq_eq_false_iff_ne.mpr (Ne.symm h)]
          | some qy =>
            dsimp only
            rw [hx, hy]
            dsimp only
            rw [abs_sub_comm]
  · intro d1 d2
    unfold descMatch
    exact Bool.or_comm _ _

/-- An empty reconciliation summary. -/
def emptySummary : Results := ⟨0, 0, 0, [], [], []⟩

/-- The contact header result of a run whose PDF contact matches. -/
def sampleContact : ContactResult :=
  mkContactResult Option.none (some "SB-SHIPPING - PRN 5789187")

/-- The purpose header result of a run whose PDF purpose matches. -/
def samplePurpose : PurposeResult :=
  mkPurposeResult (some "SB-SHIPPING - REPAIR_AND_RETURN")

set_option maxRecDepth 10000 in
/-- Claim C8 counterexample: the report text is not a function of the two
header results and the summary alone — the `Generated:` line embeds the
`datetime.now()` timestamp captured in `__init__`, so two runs with
identical header results and summary but different clock readings produce
different bytes. -/
theorem C8_counterexample :
    generate_report "2025-01-01 00:00:00" sampleContact samplePurpose emptySummary ≠
      generate_report "2025-01-02 00:00:00" sampleContact samplePurpose emptySummary := by
  decide

/-- Claim C8 amended: the report formatter is deterministic in all of its
inputs including the captured timestamp — identical
`(timestamp, header results, summary)` yield byte-identical text; only the
timestamp, taken from the clock at construction, varies between runs. -/
theorem C8_report_deterministic (t1 t2 : String) (cn1 cn2 : ContactResult)
    (pos1 pos2 : PurposeResult) (s1 s2 : Results) (ht : t1 = t2) (hcn : cn1 = cn2)
    (hpos : pos1 = pos2) (hs : s1 = s2) :
    generate_report t1 cn1 pos1 s1 = generate_report t2 cn2 pos2 s2 := by
  rw [ht, hcn, hpos, hs]

/-- Witness for the amended C8 at concrete inputs. -/
theorem C8_report_deterministic_witness :
    generate_report "2025-01-01 00:00:00" sampleContact samplePurpose emptySummary =
      generate_report "2025-01-01 00:00:00" sampleContact samplePurpose emptySummary :=
  C8_report_deterministic "2025-01-01 00:00:00" "2025-01-01 00:00:00"
    sampleContact sampleContact samplePurpose samplePurpose
    emptySummary emptySummary rfl rfl rfl rfl
